import Mathlib

/-!
Verification of `stealth-browse.py` (stealth browser automation via CDP).

Shallow embedding: the script's pure logic (risk classification, endpoint
resolution, the three actions' control flow) is translated into Lean
definitions.  Effectful browser calls are modelled by an explicit `Page`
environment recording what each call would return (`Except` for calls that
may raise), and every function additionally returns the list of
browser-side calls it performed (`Ev`), so that ordering and
non-invocation properties ("the Perform step is never invoked") are
statable.
-/

namespace StealthBrowse

/-- Decides whether `needle` is a prefix of `hay`, character by character
(model of Python's string prefix comparison used by `in`). -/
def charsIsPre : List Char → List Char → Bool
  | [], _ => true
  | _ :: _, [] => false
  | a :: as, b :: bs => a == b && charsIsPre as bs

/-- Decides whether `needle` occurs as a contiguous substring of `hay`
(model of Python's `needle in hay`). -/
def charsContains (needle : List Char) : List Char → Bool
  | [] => charsIsPre needle []
  | h :: t => charsIsPre needle (h :: t) || charsContains needle t

/-- Model of Python's `needle in hay` on strings. -/
def strContains (hay needle : String) : Bool :=
  charsContains needle.data hay.data

/-- Model of Python's `s.lower()`, character by character. -/
def strLower (s : String) : String :=
  ⟨s.data.map Char.toLower⟩

/-- Model of Python's slice `s[:n]`, by code points. -/
def strTake (s : String) (n : Nat) : String :=
  ⟨s.data.take n⟩

/-- Model of Python's `s.startswith(pre)`. -/
def strStarts (s pre : String) : Bool :=
  charsIsPre pre.data s.data

/-- Model of Python's `s.strip()`: drop whitespace from both ends. -/
def strStrip (s : String) : String :=
  ⟨((s.data.dropWhile Char.isWhitespace).reverse.dropWhile Char.isWhitespace).reverse⟩

/-- Splits a character list at newline characters (model of Python's
`s.split(newline)`); always returns at least one piece. -/
def splitNl (l : List Char) : List (List Char) :=
  match l with
  | [] => [[]]
  | c :: rest =>
    let tailPieces := splitNl rest
    if c = '\n' then [] :: tailPieces
    else
      match tailPieces with
      | [] => [[c]]
      | piece :: more => (c :: piece) :: more

/-- The fixed CDP port constant (`CDP_PORT = 9222`). -/
def CDP_PORT : Nat := 9222

/-- The screenshot directory constant (`SCREENSHOT_DIR`); `expanduser` is
environment-dependent, modelled by the literal pattern. -/
def SCREENSHOT_DIR : String := "~/.crewly/screenshots"

/-- The fixed risk keyword list of `detect_risk_control`, in source order. -/
def risk_keywords : List String :=
  ["验证码", "滑块验证", "人机验证", "操作频繁",
   "captcha", "verify you are human", "rate limit",
   "too many requests", "access denied", "you have been blocked",
   "your account has been locked", "suspicious activity"]

/-- Result of `detect_risk_control`: the dict `{detected, signals}`. -/
structure RiskRes where
  detected : Bool
  signals : List String
  deriving DecidableEq

/-- The URL-side signals of `detect_risk_control`: `captcha_url` when the
lowercased URL contains one of the three tokens. -/
def urlSignals (url : String) : List String :=
  if strContains (strLower url) "captcha" || strContains (strLower url) "verify"
      || strContains (strLower url) "challenge" then ["captcha_url"] else []

/-- The content-side signals of `detect_risk_control`: one `keyword:<kw>`
per matching keyword in list order; an unreadable content yields none. -/
def kwSignals (content : Except String String) : List String :=
  match content with
  | .error _ => []
  | .ok c =>
    let contentLow := strLower c
    (risk_keywords.filter
      (fun kw => strContains contentLow (strLower kw))).map
      (fun kw => "keyword:" ++ kw)

/-- Model of `detect_risk_control(page)`: the URL signals followed by the
content signals, in the source's append order; a raising `page.content()`
is swallowed (`content = .error _`), leaving only the URL signals;
`detected` is `len(signals) > 0`. -/
def detect_risk_control (url : String) (content : Except String String) : RiskRes :=
  let signals := urlSignals url ++ kwSignals content
  { detected := decide (signals.length > 0), signals := signals }

deriving instance DecidableEq for Except

/-- Behaviour of one DOM element: what `inner_text()`,
`scroll_into_view_if_needed()` and `click()` would do on it. -/
structure ElemSpec where
  innerText : Except String String
  scrollRes : Except String Unit
  clickRes : Except String Unit
  deriving DecidableEq

/-- Outcome of a `page.query_selector(sel)` call in the environment. -/
inductive QueryRes where
  | raised (msg : String)
  | notFound
  | found (el : ElemSpec)
  deriving DecidableEq

/-- Environment describing the page the browser calls act on. -/
structure Page where
  /-- Outcome of `page.goto(url, ...)`; an error propagates out of the
  action to `main`'s handler. -/
  gotoRes : Except String Unit
  /-- Value of `page.url` after navigation. -/
  url : String
  /-- Outcome of `page.title()`. -/
  title : Except String String
  /-- Outcome of `page.content()` (used only by the risk check). -/
  content : Except String String
  /-- Outcome of `page.query_selector(sel)` per selector. -/
  query : String → QueryRes
  /-- Outcome of `page.inner_text("body")` (the read fallback). -/
  bodyInnerText : Except String String
  /-- Outcome of `page.screenshot(...)`. -/
  screenshotRes : Except String Unit

/-- Browser-side calls an action or the session wrapper performs, in
order.  `extract`, `screenshotCapture` and `click` are the Perform steps;
`newContext` is included so that "never creates a context" is statable. -/
inductive Ev where
  | goto
  | waitNetworkIdle
  | waitForSel (sel : String)
  | hesitate
  | riskCheck
  | extract
  | ensureDir
  | screenshotCapture
  | click (sel : String)
  | newContext
  | newPage
  | closePage
  deriving DecidableEq

/-- One entry of the `interactions` list of `action_interact`. -/
structure Outcome where
  selector : String
  action : String
  success : Bool
  error : Option String
  deriving DecidableEq

/-- The JSON document an action returns: the `success:false` failure shape
(risk detected, caught exception, unknown action) or one of the three
`success:true` shapes with their action-specific payloads. -/
inductive AResult where
  | failure (error : String) (signals : Option (List String)) (advice : Option String)
  | readSuccess (url : String) (title : String) (results : List (String × Option String))
  | shotSuccess (url : String) (title : String) (screenshot : String)
  | interactSuccess (url : String) (title : String) (interactions : List Outcome)
  deriving DecidableEq

/-- The `success` boolean of the returned document. -/
def AResult.success : AResult → Bool
  | .failure _ _ _ => false
  | _ => true

/-- The `screenshot` field of the returned document, when present. -/
def AResult.screenshotPath : AResult → Option String
  | .shotSuccess _ _ p => some p
  | _ => none

/-- The fixed generic-container probe order of `action_read`. -/
def probeSelectors : List String :=
  ["article", "main", "[role=\x27main\x27]", ".content", "#content", "body"]

/-- One probe iteration body: the probe takes `sel` only when the element
is found, its `inner_text()` succeeds and the text has length `> 50`; the
taken text is truncated to 10000 characters. -/
def qualText (p : Page) (sel : String) : Option String :=
  match p.query sel with
  | .found el =>
    match el.innerText with
    | .ok t => if t.length > 50 then some (strTake t 10000) else none
    | .error _ => none
  | _ => none

/-- The heuristic probe loop of `action_read` (no-selector case): first
qualifying container in the fixed order, with exceptions continuing to the
next candidate. -/
def probeContent (p : Page) : List String → Option String
  | [] => none
  | sel :: rest =>
    match p.query sel with
    | .raised _ => probeContent p rest
    | .notFound => probeContent p rest
    | .found el =>
      match el.innerText with
      | .error _ => probeContent p rest
      | .ok t => if t.length > 50 then some (strTake t 10000) else probeContent p rest

/-- The per-selector extraction of `action_read` (selector case): `null`
for a missing element, an inline `error: <e>` string when the query or the
`inner_text()` raises. -/
def readOne (p : Page) (sel : String) : Option String :=
  match p.query sel with
  | .raised e => some ("error: " ++ e)
  | .notFound => none
  | .found el =>
    match el.innerText with
    | .error e => some ("error: " ++ e)
    | .ok t => some t

/-- Trace of the optional best-effort `wait_for_selector` wait of
`action_read`. -/
def waitForTrace (wait_for : Option String) : List Ev :=
  match wait_for with
  | some w => [.waitForSel w]
  | none => []

/-- Model of `action_read`: navigate, best-effort network-idle wait, optional
best-effort selector wait, hesitation, risk check (abort when flagged),
then extraction.  Returns the result (`Except` for an exception that
propagates to `main`) and the call trace. -/
def action_read (p : Page) (selectors : List String)
    (wait_for : Option String) : Except String AResult × List Ev :=
  match p.gotoRes with
  | .error e => (.error e, [.goto])
  | .ok _ =>
    let pre : List Ev := [.goto, .waitNetworkIdle] ++ waitForTrace wait_for ++ [.hesitate, .riskCheck]
    let risk := detect_risk_control p.url p.content
    if risk.detected then
      (.ok (.failure "risk_control_detected" (some risk.signals)
        (some "Stop immediately. Risk control triggered.")), pre)
    else
      let tr := pre ++ [.extract]
      if selectors.isEmpty then
        match probeContent p probeSelectors with
        | some t =>
          match p.title with
          | .error e => (.error e, tr)
          | .ok ti => (.ok (.readSuccess p.url ti [("content", some t)]), tr)
        | none =>
          match p.bodyInnerText with
          | .error e => (.error e, tr)
          | .ok b =>
            match p.title with
            | .error e => (.error e, tr)
            | .ok ti => (.ok (.readSuccess p.url ti [("content", some (strTake b 10000))]), tr)
      else
        match p.title with
        | .error e => (.error e, tr)
        | .ok ti =>
          (.ok (.readSuccess p.url ti
            (selectors.map (fun sel => (sel, readOne p sel)))), tr)

/-- Decimal rendering of a natural number (model of Python's f-string
interpolation of an `int`): its base-10 digits, most significant first. -/
def natDecimal (n : Nat) : String :=
  ⟨((Nat.digits 10 n).map (fun d => Char.ofNat (48 + d))).reverse⟩

/-- The screenshot file path built by `action_screenshot`: the join of
`SCREENSHOT_DIR` with the file name `stealth_<timestamp>.png`, the epoch
timestamp rendered in decimal. -/
def screenshotFilepath (timestamp : Nat) : String :=
  SCREENSHOT_DIR ++ "/" ++ "stealth_" ++ natDecimal timestamp ++ ".png"

/-- Model of `action_screenshot`: ensure the directory, navigate, best-effort
network-idle wait, hesitation, risk check (abort when flagged), then
capture to the timestamp-named file. -/
def action_screenshot (p : Page) (now : Nat) : Except String AResult × List Ev :=
  match p.gotoRes with
  | .error e => (.error e, [.ensureDir, .goto])
  | .ok _ =>
    let pre : List Ev := [.ensureDir, .goto, .waitNetworkIdle, .hesitate, .riskCheck]
    let risk := detect_risk_control p.url p.content
    if risk.detected then
      (.ok (.failure "risk_control_detected" (some risk.signals) none), pre)
    else
      let filepath := screenshotFilepath now
      let tr := pre ++ [.screenshotCapture]
      match p.screenshotRes with
      | .error e => (.error e, tr)
      | .ok _ =>
        match p.title with
        | .error e => (.error e, tr)
        | .ok ti => (.ok (.shotSuccess p.url ti filepath), tr)

/-- One iteration of `action_interact`'s loop: outcome record plus the
`click` calls it performs (a click that raises was still invoked). -/
def interactOne (p : Page) (sel : String) : Outcome × List Ev :=
  match p.query sel with
  | .raised e =>
    ({ selector := sel, action := "error", success := false, error := some e }, [])
  | .notFound =>
    ({ selector := sel, action := "not_found", success := false, error := none }, [])
  | .found el =>
    match el.scrollRes with
    | .error e =>
      ({ selector := sel, action := "error", success := false, error := some e }, [])
    | .ok _ =>
      match el.clickRes with
      | .error e =>
        ({ selector := sel, action := "error", success := false, error := some e },
         [.click sel])
      | .ok _ =>
        ({ selector := sel, action := "clicked", success := true, error := none },
         [.click sel])

/-- Model of `action_interact`: navigate, hesitation, risk check (abort when
flagged), then one outcome per selector in input order; a single
selector's failure does not stop the loop.  Note: no network-idle wait. -/
def action_interact (p : Page) (selectors : List String) :
    Except String AResult × List Ev :=
  match p.gotoRes with
  | .error e => (.error e, [.goto])
  | .ok _ =>
    let pre : List Ev := [.goto, .hesitate, .riskCheck]
    let risk := detect_risk_control p.url p.content
    if risk.detected then
      (.ok (.failure "risk_control_detected" (some risk.signals) none), pre)
    else
      let outcomes := selectors.map (fun sel => (interactOne p sel).1)
      let clickTr := (selectors.map (fun sel => (interactOne p sel).2)).flatten
      let tr := pre ++ clickTr
      match p.title with
      | .error e => (.error e, tr)
      | .ok ti => (.ok (.interactSuccess p.url ti outcomes), tr)

/-- Body of the HTTP response of `GET /json/version`: undecodable JSON, or
a JSON object with or without the `webSocketDebuggerUrl` field. -/
inductive CdpBody where
  | malformed
  | fields (ws : Option String)
  deriving DecidableEq

/-- Outcome of one attempted fetch of the CDP metadata document on a
port: a connection-level exception, or an HTTP response. -/
inductive CdpFetch where
  | connErr (msg : String)
  | resp (status : Nat) (body : CdpBody)
  deriving DecidableEq

/-- Result of running the launcher script: exit code, stdout, stderr. -/
structure LaunchRes where
  returncode : Int
  stdout : String
  stderr : String
  deriving DecidableEq

/-- Environment for endpoint resolution.  `fetchBefore` is what the
metadata fetch returns before any launch, `fetchAfterLaunch` what it
returns once the launcher has run (the browser may have started in
between), `launch` what the launcher process does per port. -/
structure CdpEnv where
  fetchBefore : Nat → CdpFetch
  fetchAfterLaunch : Nat → CdpFetch
  launch : Nat → LaunchRes

/-- Resolver-side calls, in order: metadata fetches and launcher runs,
each recording the port it targeted. -/
inductive REv where
  | fetchOn (port : Nat)
  | launchOn (port : Nat)
  deriving DecidableEq

/-- Model of `get_ws_url(port)` over one fetch behaviour `f`: raise on a
connection error, on a non-200 status, on undecodable JSON or on a
missing `webSocketDebuggerUrl` key; otherwise return the field value
verbatim.  The exception messages for the JSON and key errors stand in
for the library's. -/
def get_ws_url (f : Nat → CdpFetch) (port : Nat) : Except String String :=
  match f port with
  | .connErr e => .error e
  | .resp status body =>
    if status ≠ 200 then .error ("CDP returned HTTP " ++ natDecimal status)
    else
      match body with
      | .malformed => .error "json decode error"
      | .fields none => .error "KeyError: webSocketDebuggerUrl"
      | .fields (some w) => .ok w

/-- Last line of the stripped launcher stdout: the model of
`result.stdout.strip().split(...)[-1]` splitting at newlines. -/
def lastLine (s : String) : String :=
  ⟨(splitNl (strStrip s).data).getLastD []⟩

/-- Model of `ensure_chrome_running()`: try `get_ws_url()` on the fixed
`CDP_PORT`; on any exception run the launcher with `CDP_PORT`; a non-zero
exit is fatal; otherwise use the last stdout line directly when it starts
with `ws://`, else fetch the metadata again. -/
def ensure_chrome_running (env : CdpEnv) : Except String String × List REv :=
  match get_ws_url env.fetchBefore CDP_PORT with
  | .ok w => (.ok w, [.fetchOn CDP_PORT])
  | .error _ =>
    let res := env.launch CDP_PORT
    if res.returncode ≠ 0 then
      (.error ("Failed to launch Chrome: " ++ res.stderr),
       [.fetchOn CDP_PORT, .launchOn CDP_PORT])
    else
      let ws := lastLine res.stdout
      if strStarts ws "ws://" then
        (.ok ws, [.fetchOn CDP_PORT, .launchOn CDP_PORT])
      else
        (get_ws_url env.fetchAfterLaunch CDP_PORT,
         [.fetchOn CDP_PORT, .launchOn CDP_PORT, .fetchOn CDP_PORT])

/-- Endpoint resolution as `main` performs it: `main` parses the
`--cdp-port` override into `cdpPort` but calls `ensure_chrome_running()`
with no argument, so the override is unused. -/
def mainResolve (env : CdpEnv) (_cdpPort : Nat) : Except String String × List REv :=
  ensure_chrome_running env

/-- Dispatch on `args.action` inside `main`'s try block; the final `else`
is the defensive `unknown_action` branch. -/
def runAction (act : String) (p : Page) (selectors : List String)
    (wait_for : Option String) (now : Nat) : Except String AResult × List Ev :=
  if act == "read" then action_read p selectors wait_for
  else if act == "screenshot" then action_screenshot p now
  else if act == "interact" then action_interact p selectors
  else (.ok (.failure ("unknown_action: " ++ act) none none), [])

/-- Outcome of the session part of `main`: terminal failure when the
connected browser has no contexts (exit 1), or a completed run that bound
the given context identity and printed the given result (exit 0). -/
inductive SessionOut where
  | noContext
  | completed (boundContext : Nat) (result : AResult)
  deriving DecidableEq

/-- The document `main` prints: the action's own document on a normal
return, or the generic catch-all failure built from the exception's
message (`except Exception as e` around the action dispatch). -/
def collectResult (r : Except String AResult) : AResult :=
  match r with
  | .ok a => a
  | .error e => .failure e none none

/-- Session part of `main` (after `connect_over_cdp`): bind `contexts[0]`
(never creating a context), open one page, run the action with uncaught
exceptions turned into a generic failure document, and close the page in
the `finally` on every path.  The contexts are abstracted to identities. -/
def mainSession (contexts : List Nat) (act : String) (p : Page)
    (selectors : List String) (wait_for : Option String) (now : Nat) :
    SessionOut × List Ev :=
  match contexts with
  | [] => (.noContext, [])
  | c :: _ =>
    match runAction act p selectors wait_for now with
    | (r, tr) => (.completed c (collectResult r), [Ev.newPage] ++ tr ++ [Ev.closePage])

/-- A benign concrete page: no risk signals, all probes miss. -/
def benignPage : Page where
  gotoRes := .ok ()
  url := "https://example.com/home"
  title := .ok "Example Domain"
  content := .ok "hello world page"
  query := fun _ => .notFound
  bodyInnerText := .ok "hello"
  screenshotRes := .ok ()

/-- A concrete page whose URL triggers the `captcha_url` signal. -/
def flaggedPage : Page where
  gotoRes := .ok ()
  url := "https://example.com/CAPTCHA/step"
  title := .ok "Are you human?"
  content := .error "content read failed"
  query := fun _ => .notFound
  bodyInnerText := .ok ""
  screenshotRes := .ok ()

/-! Helper lemmas about the signal strings of the classifier. -/

/-- A keyword tag is never the URL signal (their first characters differ). -/
theorem keyword_tag_ne (kw : String) : "keyword:" ++ kw ≠ "captcha_url" := by
  intro h
  have h2 : ("keyword:" ++ kw).data = "captcha_url".data := by rw [h]
  rw [String.data_append] at h2
  have hk : "keyword:".data = 'k' :: "eyword:".data := rfl
  have hc : "captcha_url".data = 'c' :: "aptcha_url".data := rfl
  rw [hk, hc, List.cons_append] at h2
  injection h2 with h3 _
  exact absurd h3 (by decide)

/-- Keyword tags are injective in the keyword. -/
theorem keyword_tag_inj {a b : String} (h : "keyword:" ++ a = "keyword:" ++ b) : a = b := by
  have h2 : ("keyword:" ++ a).data = ("keyword:" ++ b).data := by rw [h]
  rw [String.data_append, String.data_append] at h2
  exact String.ext (List.append_cancel_left h2)

/-- Membership characterization of the content-side signals. -/
theorem mem_kwSignals {s : String} {content : Except String String} :
    s ∈ kwSignals content ↔
      ∃ c kw, content = .ok c ∧ kw ∈ risk_keywords ∧
        strContains (strLower c) (strLower kw) = true ∧ s = "keyword:" ++ kw := by
  cases content with
  | error e => simp [kwSignals]
  | ok c =>
    simp only [kwSignals, List.mem_map, List.mem_filter]
    constructor
    · rintro ⟨kw, ⟨hmem, hmatch⟩, rfl⟩
      exact ⟨c, kw, rfl, hmem, hmatch, rfl⟩
    · rintro ⟨c', kw, hc, hmem, hmatch, rfl⟩
      injection hc with hc'
      subst hc'
      exact ⟨kw, ⟨hmem, hmatch⟩, rfl⟩

/-- The URL-side signals are at most the singleton `captcha_url`. -/
theorem mem_urlSignals {s : String} {url : String} :
    s ∈ urlSignals url ↔
      s = "captcha_url" ∧
        (strContains (strLower url) "captcha" || strContains (strLower url) "verify"
          || strContains (strLower url) "challenge") = true := by
  unfold urlSignals
  split <;> simp_all

/-- C3: the classifier reports `detected` exactly when its signal list is
non-empty; `captcha_url` is emitted exactly when the lowercased URL
contains `captcha`, `verify` or `challenge`; `keyword:<kw>` is emitted
exactly when `kw` is in the fixed keyword list, the content was readable
and its lowercased text contains the lowercased keyword; both checks are
combined (URL signals first); and an unreadable content leaves exactly
the URL-based signals. -/
theorem C3_risk_classifier (url : String) (content : Except String String) :
    ((detect_risk_control url content).detected = true ↔
      (detect_risk_control url content).signals ≠ []) ∧
    ("captcha_url" ∈ (detect_risk_control url content).signals ↔
      (strContains (strLower url) "captcha" || strContains (strLower url) "verify"
        || strContains (strLower url) "challenge") = true) ∧
    (∀ kw : String, ("keyword:" ++ kw) ∈ (detect_risk_control url content).signals ↔
      (kw ∈ risk_keywords ∧ ∃ c, content = .ok c ∧
        strContains (strLower c) (strLower kw) = true)) ∧
    ((detect_risk_control url content).signals = urlSignals url ++ kwSignals content) ∧
    (∀ e : String, content = .error e →
      (detect_risk_control url content).signals = urlSignals url) := by
  refine ⟨?_, ?_, ?_, rfl, ?_⟩
  · simp [detect_risk_control, List.length_pos]
    tauto
  · show "captcha_url" ∈ urlSignals url ++ kwSignals content ↔ _
    rw [List.mem_append]
    constructor
    · rintro (h1 | h2)
      · exact (mem_urlSignals.mp h1).2
      · obtain ⟨c, kw, _, _, _, hs⟩ := mem_kwSignals.mp h2
        exact absurd hs.symm (keyword_tag_ne kw)
    · intro h
      exact Or.inl (mem_urlSignals.mpr ⟨rfl, h⟩)
  · intro kw
    show "keyword:" ++ kw ∈ urlSignals url ++ kwSignals content ↔ _
    rw [List.mem_append]
    constructor
    · rintro (h1 | h2)
      · exact absurd (mem_urlSignals.mp h1).1 (keyword_tag_ne kw)
      · obtain ⟨c, kw', hc, hmem, hmatch, hs⟩ := mem_kwSignals.mp h2
        obtain rfl := keyword_tag_inj hs
        exact ⟨hmem, c, hc, hmatch⟩
    · rintro ⟨hmem, c, hc, hmatch⟩
      exact Or.inr (mem_kwSignals.mpr ⟨c, kw, hc, hmem, hmatch, rfl⟩)
  · intro e he
    subst he
    show urlSignals url ++ kwSignals (.error e) = urlSignals url
    simp [kwSignals]

/-- Witness for C3 at a concrete URL and an unreadable content. -/
theorem C3_risk_classifier_witness :
    (detect_risk_control "https://x.test/Verify" (.error "boom")).signals =
      urlSignals "https://x.test/Verify" ∧
    "captcha_url" ∈ (detect_risk_control "https://x.test/Verify" (.error "boom")).signals := by
  refine ⟨(C3_risk_classifier "https://x.test/Verify" (.error "boom")).2.2.2.2 "boom" rfl, ?_⟩
  exact (C3_risk_classifier "https://x.test/Verify" (.error "boom")).2.1.mpr (by decide)

/-- C1: whenever the post-navigation risk classifier reports
`detected = true`, each of the three actions returns the
`risk_control_detected` failure carrying the classifier's signals, and the
Perform step (extraction, capture, clicking) is never invoked. -/
theorem C1_risk_abort (p : Page) (selectors : List String) (wait_for : Option String)
    (now : Nat) (hg : p.gotoRes = .ok ())
    (hd : (detect_risk_control p.url p.content).detected = true) :
    ((action_read p selectors wait_for).1 =
        .ok (.failure "risk_control_detected"
          (some (detect_risk_control p.url p.content).signals)
          (some "Stop immediately. Risk control triggered.")) ∧
      Ev.extract ∉ (action_read p selectors wait_for).2) ∧
    ((action_screenshot p now).1 =
        .ok (.failure "risk_control_detected"
          (some (detect_risk_control p.url p.content).signals) none) ∧
      Ev.screenshotCapture ∉ (action_screenshot p now).2) ∧
    ((action_interact p selectors).1 =
        .ok (.failure "risk_control_detected"
          (some (detect_risk_control p.url p.content).signals) none) ∧
      ∀ sel : String, Ev.click sel ∉ (action_interact p selectors).2) := by
  refine ⟨⟨?_, ?_⟩, ⟨?_, ?_⟩, ?_, ?_⟩ <;>
    cases wait_for <;>
      simp [action_read, action_screenshot, action_interact, waitForTrace, hg, hd]

/-- Witness for C1 on a page whose URL contains `CAPTCHA`. -/
theorem C1_risk_abort_witness :
    (action_read flaggedPage [] none).1 =
      .ok (.failure "risk_control_detected" (some ["captcha_url"])
        (some "Stop immediately. Risk control triggered.")) ∧
    Ev.extract ∉ (action_read flaggedPage [] none).2 := by
  have h := (C1_risk_abort flaggedPage [] none 0 rfl (by decide)).1
  have hs : (detect_risk_control flaggedPage.url flaggedPage.content).signals =
      ["captcha_url"] := by decide
  rw [hs] at h
  exact h

/-- C10: when navigation succeeds and no risk is detected, the interact
action's top-level result is a success document, whatever the
per-selector outcomes are; only the `interactions` records reveal whether
any click happened. -/
theorem C10_interact_top_success (p : Page) (selectors : List String) (ti : String)
    (hg : p.gotoRes = .ok ())
    (hd : (detect_risk_control p.url p.content).detected = false)
    (ht : p.title = .ok ti) :
    (action_interact p selectors).1 =
      .ok (.interactSuccess p.url ti (selectors.map (fun sel => (interactOne p sel).1))) ∧
    (∀ r : AResult, (action_interact p selectors).1 = .ok r → r.success = true) := by
  have h1 : (action_interact p selectors).1 =
      .ok (.interactSuccess p.url ti (selectors.map (fun sel => (interactOne p sel).1))) := by
    simp [action_interact, hg, hd, ht]
  refine ⟨h1, ?_⟩
  intro r hr
  rw [h1] at hr
  injection hr with hr'
  subst hr'
  rfl

/-- Witness for C10: every selector misses, yet `success` is `true`. -/
theorem C10_interact_top_success_witness :
    (action_interact benignPage ["#missing1", "#missing2"]).1 =
      .ok (.interactSuccess "https://example.com/home" "Example Domain"
        [⟨"#missing1", "not_found", false, none⟩, ⟨"#missing2", "not_found", false, none⟩]) := by
  have h := (C10_interact_top_success benignPage ["#missing1", "#missing2"]
    "Example Domain" rfl (by decide) rfl).1
  have he : ((["#missing1", "#missing2"] : List String).map
        (fun sel => (interactOne benignPage sel).1)) =
      [⟨"#missing1", "not_found", false, none⟩, ⟨"#missing2", "not_found", false, none⟩] := by
    decide
  rw [he] at h
  exact h

/-- The outcome record of one interact iteration keeps its selector. -/
theorem interactOne_selector (p : Page) (sel : String) :
    (interactOne p sel).1.selector = sel := by
  unfold interactOne
  split
  · rfl
  · rfl
  · split
    · rfl
    · split <;> rfl

/-- C7: the interact action yields exactly one outcome per input
selector, in input order (the outcome list is the pointwise image of the
selector list, and projecting the selectors back recovers the input
list); a found-and-clicked element yields a `clicked` success record, a
missing element a `not_found` failure record, a raised error an `error`
record with its message; and one selector's outcome never depends on or
stops the others (each outcome is a function of its own selector
alone). -/
theorem C7_interact_outcomes (p : Page) (selectors : List String) (ti : String)
    (hg : p.gotoRes = .ok ())
    (hd : (detect_risk_control p.url p.content).detected = false)
    (ht : p.title = .ok ti) :
    (action_interact p selectors).1 =
      .ok (.interactSuccess p.url ti (selectors.map (fun sel => (interactOne p sel).1))) ∧
    (selectors.map (fun sel => (interactOne p sel).1)).map Outcome.selector = selectors ∧
    (∀ sel el, p.query sel = .found el → el.scrollRes = .ok () → el.clickRes = .ok () →
      (interactOne p sel).1 = ⟨sel, "clicked", true, none⟩) ∧
    (∀ sel, p.query sel = .notFound →
      (interactOne p sel).1 = ⟨sel, "not_found", false, none⟩) ∧
    (∀ sel e, p.query sel = .raised e →
      (interactOne p sel).1 = ⟨sel, "error", false, some e⟩) := by
  refine ⟨by simp [action_interact, hg, hd, ht], ?_, ?_, ?_, ?_⟩
  · rw [List.map_map]
    have : ∀ sel ∈ selectors, (Outcome.selector ∘ fun s => (interactOne p s).1) sel =
        id sel := by
      intro sel _
      simp [interactOne_selector]
    rw [List.map_congr_left this, List.map_id]
  · intro sel el hq hs hc
    simp [interactOne, hq, hs, hc]
  · intro sel hq
    simp [interactOne, hq]
  · intro sel e hq
    simp [interactOne, hq]

/-- A concrete page for the spec's interact example: `#a` exists and is
clickable, everything else is missing. -/
def interactPage : Page where
  gotoRes := .ok ()
  url := "https://example.com/app"
  title := .ok "App"
  content := .ok "plain content"
  query := fun sel => if sel = "#a" then .found ⟨.ok "A", .ok (), .ok ()⟩ else .notFound
  bodyInnerText := .ok ""
  screenshotRes := .ok ()

/-- Witness for C7: the spec's example input yields exactly the ordered
outcomes clicked-then-not-found. -/
theorem C7_interact_outcomes_witness :
    (action_interact interactPage ["#a", "#missing"]).1 =
      .ok (.interactSuccess "https://example.com/app" "App"
        [⟨"#a", "clicked", true, none⟩, ⟨"#missing", "not_found", false, none⟩]) := by
  have h := (C7_interact_outcomes interactPage ["#a", "#missing"] "App"
    rfl (by decide) rfl).1
  have he : ((["#a", "#missing"] : List String).map
        (fun sel => (interactOne interactPage sel).1)) =
      [⟨"#a", "clicked", true, none⟩, ⟨"#missing", "not_found", false, none⟩] := by
    decide
  rw [he] at h
  exact h

/-! Trace-shape lemmas for the three actions. -/

/-- The read trace: navigate, network-idle wait, optional selector wait,
hesitation, risk check, then the extraction exactly when no risk was
detected. -/
theorem action_read_trace (p : Page) (sels : List String) (wf : Option String)
    (hg : p.gotoRes = .ok ()) :
    (action_read p sels wf).2 =
      [.goto, .waitNetworkIdle] ++ waitForTrace wf ++ [.hesitate, .riskCheck] ++
        (if (detect_risk_control p.url p.content).detected then [] else [.extract]) := by
  cases hd : (detect_risk_control p.url p.content).detected <;>
    simp only [action_read, hg, hd, if_true, if_false, Bool.false_eq_true, if_neg,
      not_false_eq_true] <;>
    (repeat' split) <;> simp

/-- The screenshot trace: directory, navigate, network-idle wait,
hesitation, risk check, then the capture exactly when no risk was
detected. -/
theorem action_screenshot_trace (p : Page) (now : Nat) (hg : p.gotoRes = .ok ()) :
    (action_screenshot p now).2 =
      [.ensureDir, .goto, .waitNetworkIdle, .hesitate, .riskCheck] ++
        (if (detect_risk_control p.url p.content).detected then [] else [.screenshotCapture]) := by
  cases hd : (detect_risk_control p.url p.content).detected <;>
    simp only [action_screenshot, hg, hd, if_true, if_false, Bool.false_eq_true, if_neg,
      not_false_eq_true] <;>
    (repeat' split) <;> simp

/-- The interact trace: navigate, hesitation, risk check, then the click
calls exactly when no risk was detected; there is no network-idle wait. -/
theorem action_interact_trace (p : Page) (sels : List String) (hg : p.gotoRes = .ok ()) :
    (action_interact p sels).2 =
      [.goto, .hesitate, .riskCheck] ++
        (if (detect_risk_control p.url p.content).detected then []
         else (sels.map (fun sel => (interactOne p sel).2)).flatten) := by
  cases hd : (detect_risk_control p.url p.content).detected <;>
    simp only [action_interact, hg, hd, if_true, if_false, Bool.false_eq_true, if_neg,
      not_false_eq_true] <;>
    (repeat' split) <;> simp

/-- Every call one interact iteration performs is a click on its own
selector. -/
theorem interactOne_trace (p : Page) (sel : String) :
    ∀ e ∈ (interactOne p sel).2, e = Ev.click sel := by
  unfold interactOne
  split
  · simp
  · simp
  · split
    · simp
    · split <;> simp

/-- Session-level events: context creation, page creation, page close. -/
def Ev.isSession : Ev → Bool
  | .newContext => true
  | .newPage => true
  | .closePage => true
  | _ => false

/-- No event the read action emits is a session-level event. -/
theorem mem_action_read_no_session (p : Page) (sels : List String) (wf : Option String) :
    ∀ e ∈ (action_read p sels wf).2, e.isSession = false := by
  intro e he
  cases hg : p.gotoRes with
  | error msg =>
    unfold action_read at he
    rw [hg] at he
    simp at he
    subst he
    rfl
  | ok u =>
    cases u
    rw [action_read_trace p sels wf hg] at he
    rcases List.mem_append.mp he with h | h
    · rcases List.mem_append.mp h with h2 | h2
      · rcases List.mem_append.mp h2 with h3 | h3
        · fin_cases h3 <;> rfl
        · cases wf with
          | none => simp [waitForTrace] at h3
          | some w =>
            simp [waitForTrace] at h3
            subst h3
            rfl
      · fin_cases h2 <;> rfl
    · split at h
      · simp at h
      · fin_cases h
        rfl

/-- No event the screenshot action emits is a session-level event. -/
theorem mem_action_screenshot_no_session (p : Page) (now : Nat) :
    ∀ e ∈ (action_screenshot p now).2, e.isSession = false := by
  intro e he
  cases hg : p.gotoRes with
  | error msg =>
    unfold action_screenshot at he
    rw [hg] at he
    fin_cases he <;> rfl
  | ok u =>
    cases u
    rw [action_screenshot_trace p now hg] at he
    rcases List.mem_append.mp he with h | h
    · fin_cases h <;> rfl
    · split at h
      · simp at h
      · fin_cases h
        rfl

/-- No event the interact action emits is a session-level event. -/
theorem mem_action_interact_no_session (p : Page) (sels : List String) :
    ∀ e ∈ (action_interact p sels).2, e.isSession = false := by
  intro e he
  cases hg : p.gotoRes with
  | error msg =>
    unfold action_interact at he
    rw [hg] at he
    simp at he
    subst he
    rfl
  | ok u =>
    cases u
    rw [action_interact_trace p sels hg] at he
    rcases List.mem_append.mp he with h | h
    · fin_cases h <;> rfl
    · split at h
      · simp at h
      · obtain ⟨l, hl, hel⟩ := List.mem_flatten.mp h
        obtain ⟨sel, _, rfl⟩ := List.mem_map.mp hl
        obtain rfl := interactOne_trace p sel e hel
        rfl

/-- No event the dispatched action emits is a session-level event. -/
theorem runAction_trace_no_session (act : String) (p : Page) (sels : List String)
    (wf : Option String) (now : Nat) :
    ∀ e ∈ (runAction act p sels wf now).2, e.isSession = false := by
  intro e he
  unfold runAction at he
  split at he
  · exact mem_action_read_no_session p sels wf e he
  · split at he
    · exact mem_action_screenshot_no_session p now e he
    · split at he
      · exact mem_action_interact_no_session p sels e he
      · simp at he

/-- C2: the session binds the pre-existing first context (`contexts[0]`)
and fails terminally when no context exists; no `new_context` call ever
happens; exactly one page is created, and the trace ends with the page
close after the action's events on every exit path — normal return,
handled error, or unhandled exception (all action outcomes flow through
the same `finally`). -/
theorem C2_session_invariants (contexts : List Nat) (act : String) (p : Page)
    (selectors : List String) (wait_for : Option String) (now : Nat) :
    (contexts = [] →
      mainSession contexts act p selectors wait_for now = (.noContext, [])) ∧
    (∀ c cs, contexts = c :: cs → ∃ result atr,
      mainSession contexts act p selectors wait_for now =
        (.completed c result, Ev.newPage :: atr ++ [Ev.closePage]) ∧
      ∀ e ∈ atr, e.isSession = false) ∧
    Ev.newContext ∉ (mainSession contexts act p selectors wait_for now).2 := by
  refine ⟨?_, ?_, ?_⟩
  · rintro rfl
    rfl
  · rintro c cs rfl
    rcases hR : runAction act p selectors wait_for now with ⟨r, tr⟩
    have hM : mainSession (c :: cs) act p selectors wait_for now =
        (.completed c (collectResult r), Ev.newPage :: tr ++ [Ev.closePage]) := by
      unfold mainSession
      rw [hR]
      rfl
    exact ⟨collectResult r, tr, hM, fun e he =>
      runAction_trace_no_session act p selectors wait_for now e (by rw [hR]; exact he)⟩
  · intro hmem
    rcases contexts with _ | ⟨c, cs⟩
    · simp [mainSession] at hmem
    · rcases hR : runAction act p selectors wait_for now with ⟨r, tr⟩
      have hM : mainSession (c :: cs) act p selectors wait_for now =
          (.completed c (collectResult r), Ev.newPage :: tr ++ [Ev.closePage]) := by
        unfold mainSession
        rw [hR]
        rfl
      rw [hM] at hmem
      rcases List.mem_cons.mp hmem with h | h
      · exact absurd h (by decide)
      · rcases List.mem_append.mp h with h2 | h2
        · have hs := runAction_trace_no_session act p selectors wait_for now Ev.newContext
            (by rw [hR]; exact h2)
          simp [Ev.isSession] at hs
        · simp at h2

/-- Witness for C2: one context yields a bound first context with the
page closed last; zero contexts is terminal. -/
theorem C2_session_invariants_witness :
    (mainSession [] "read" benignPage [] none 0 = (.noContext, [])) ∧
    Ev.newContext ∉ (mainSession [7] "read" benignPage [] none 0).2 ∧
    (∃ result atr,
      mainSession [7] "read" benignPage [] none 0 =
        (.completed 7 result, Ev.newPage :: atr ++ [Ev.closePage]) ∧
      ∀ e ∈ atr, e.isSession = false) := by
  refine ⟨(C2_session_invariants [] "read" benignPage [] none 0).1 rfl,
    (C2_session_invariants [7] "read" benignPage [] none 0).2.2,
    (C2_session_invariants [7] "read" benignPage [] none 0).2.1 7 [] rfl⟩

/-- C5 counterexample: on a risk-free page, the interact action's trace
contains the risk check but no network-quiescence wait at all, so the
claimed "network-idle wait before the risk check in all three actions"
fails for interact. -/
theorem C5_counterexample :
    (action_interact benignPage ["#x"]).2 = [.goto, .hesitate, .riskCheck] ∧
    Ev.riskCheck ∈ (action_interact benignPage ["#x"]).2 ∧
    Ev.waitNetworkIdle ∉ (action_interact benignPage ["#x"]).2 := by
  refine ⟨by decide, by decide, by decide⟩

/-- C5 as amended: read and screenshot perform navigate, then the
best-effort network-idle wait (read: then the optional selector wait),
then the hesitation delay, then the risk check, and only then their
perform events; interact performs navigate, hesitation and the risk check
with no network-idle wait before its perform events. -/
theorem C5_settle_order (p : Page) (selectors : List String) (wait_for : Option String)
    (now : Nat) (hg : p.gotoRes = .ok ()) :
    (∃ rest, (action_read p selectors wait_for).2 =
        [.goto, .waitNetworkIdle] ++ waitForTrace wait_for ++ [.hesitate, .riskCheck] ++ rest ∧
      ∀ e ∈ rest, e = Ev.extract) ∧
    (∃ rest, (action_screenshot p now).2 =
        [.ensureDir, .goto, .waitNetworkIdle, .hesitate, .riskCheck] ++ rest ∧
      ∀ e ∈ rest, e = Ev.screenshotCapture) ∧
    (∃ rest, (action_interact p selectors).2 =
        [.goto, .hesitate, .riskCheck] ++ rest ∧
      (∀ e ∈ rest, ∃ sel, e = Ev.click sel) ∧
      Ev.waitNetworkIdle ∉ (action_interact p selectors).2) := by
  refine ⟨⟨_, action_read_trace p selectors wait_for hg, ?_⟩,
    ⟨_, action_screenshot_trace p now hg, ?_⟩,
    ⟨_, action_interact_trace p selectors hg, ?_, ?_⟩⟩
  · intro e he
    split at he <;> simp_all
  · intro e he
    split at he <;> simp_all
  · intro e he
    split at he
    · simp at he
    · obtain ⟨l, hl, hel⟩ := List.mem_flatten.mp he
      obtain ⟨sel, _, rfl⟩ := List.mem_map.mp hl
      exact ⟨sel, interactOne_trace p sel e hel⟩
  · intro hmem
    rw [action_interact_trace p selectors hg] at hmem
    rcases List.mem_append.mp hmem with h | h
    · simp at h
    · split at h
      · simp at h
      · obtain ⟨l, hl, hel⟩ := List.mem_flatten.mp h
        obtain ⟨sel, _, rfl⟩ := List.mem_map.mp hl
        have := interactOne_trace p sel _ hel
        simp at this

/-- Witness for C5 as amended, at a concrete risk-free page. -/
theorem C5_settle_order_witness :
    benignPage.gotoRes = .ok () ∧
    (∃ rest, (action_interact benignPage ["#x"]).2 =
        [.goto, .hesitate, .riskCheck] ++ rest ∧
      (∀ e ∈ rest, ∃ sel, e = Ev.click sel) ∧
      Ev.waitNetworkIdle ∉ (action_interact benignPage ["#x"]).2) := by
  exact ⟨rfl, (C5_settle_order benignPage ["#x"] none 0 rfl).2.2⟩

/-- The probe loop takes the first qualifying container, in list order. -/
theorem probeContent_eq_findSome (p : Page) :
    ∀ l : List String, probeContent p l = l.findSome? (qualText p) := by
  intro l
  induction l with
  | nil => rfl
  | cons sel rest ih =>
    rw [List.findSome?_cons]
    cases hq : p.query sel with
    | raised e => simp [probeContent, qualText, hq, ih]
    | notFound => simp [probeContent, qualText, hq, ih]
    | found el =>
      cases hit : el.innerText with
      | error e => simp [probeContent, qualText, hq, hit, ih]
      | ok t =>
        by_cases hl : t.length > 50
        · simp [probeContent, qualText, hq, hit, hl]
        · simp [probeContent, qualText, hq, hit, hl, ih]

/-- C6: with no selectors, the read action probes the fixed container
order and returns the first probe whose text qualifies (found, readable,
longer than 50), truncated to 10000 characters; when no probe qualifies
it returns the whole page's body text truncated to the cap, and the
truncation is the identity on any text within the cap (such as a
10-character body). -/
theorem C6_read_fallback (p : Page) (ti b : String)
    (hg : p.gotoRes = .ok ())
    (hd : (detect_risk_control p.url p.content).detected = false)
    (ht : p.title = .ok ti)
    (hb : p.bodyInnerText = .ok b) :
    (∀ l : List String, probeContent p l = l.findSome? (qualText p)) ∧
    (action_read p [] none).1 =
      .ok (.readSuccess p.url ti
        [("content", some ((probeSelectors.findSome? (qualText p)).getD (strTake b 10000)))]) ∧
    ((∀ sel ∈ probeSelectors, qualText p sel = none) →
      (action_read p [] none).1 =
        .ok (.readSuccess p.url ti [("content", some (strTake b 10000))])) ∧
    (b.length ≤ 10000 → strTake b 10000 = b) := by
  have hmain : (action_read p [] none).1 =
      .ok (.readSuccess p.url ti
        [("content", some ((probeSelectors.findSome? (qualText p)).getD (strTake b 10000)))]) := by
    have hp := probeContent_eq_findSome p probeSelectors
    cases hf : probeSelectors.findSome? (qualText p) with
    | some t =>
      simp [action_read, waitForTrace, hg, hd, ht, hp, hf]
    | none =>
      simp [action_read, waitForTrace, hg, hd, ht, hb, hp, hf]
  refine ⟨probeContent_eq_findSome p, hmain, ?_, ?_⟩
  · intro hall
    have hf : probeSelectors.findSome? (qualText p) = none :=
      List.findSome?_eq_none_iff.mpr hall
    rw [hf] at hmain
    exact hmain
  · intro hlen
    unfold strTake
    rw [List.take_of_length_le hlen]

/-- A concrete page containing only a 10-character body text. -/
def bodyPage : Page where
  gotoRes := .ok ()
  url := "https://example.com/tiny"
  title := .ok "Tiny"
  content := .ok "tiny page"
  query := fun sel =>
    if sel = "body" then .found ⟨.ok "short text", .ok (), .ok ()⟩ else .notFound
  bodyInnerText := .ok "short text"
  screenshotRes := .ok ()

/-- Witness for C6: the 10-character body fails every probe and comes
back whole. -/
theorem C6_read_fallback_witness :
    (action_read bodyPage [] none).1 =
      .ok (.readSuccess "https://example.com/tiny" "Tiny"
        [("content", some "short text")]) ∧
    ("short text" : String).length = 10 := by
  have h := (C6_read_fallback bodyPage "Tiny" "short text" rfl (by decide) rfl rfl).2.2.1
    (by decide)
  have ht : strTake "short text" 10000 = "short text" :=
    (C6_read_fallback bodyPage "Tiny" "short text" rfl (by decide) rfl rfl).2.2.2 (by decide)
  rw [ht] at h
  exact ⟨h, by decide⟩

/-- C4: a well-formed metadata response (HTTP 200 with the session-URL
field) resolves to exactly that field's value, and `ensure_chrome_running`
then never invokes the launcher; any failing fetch (non-200, malformed
body, connection error, missing field) falls through to the launcher; a
non-zero launcher exit is fatal with the launcher's stderr; on launcher
success the last output line is used directly when it starts with
`ws://`, and the metadata fetch is retried otherwise. -/
theorem C4_endpoint_resolution :
    (∀ (f : Nat → CdpFetch) (port : Nat) (w : String),
      f port = .resp 200 (.fields (some w)) → get_ws_url f port = .ok w) ∧
    (∀ (f : Nat → CdpFetch) (port st : Nat) (b : CdpBody),
      st ≠ 200 → f port = .resp st b → ∃ e, get_ws_url f port = .error e) ∧
    (∀ (f : Nat → CdpFetch) (port : Nat),
      f port = .resp 200 .malformed → ∃ e, get_ws_url f port = .error e) ∧
    (∀ (env : CdpEnv) (w : String),
      env.fetchBefore CDP_PORT = .resp 200 (.fields (some w)) →
        ensure_chrome_running env = (.ok w, [.fetchOn CDP_PORT])) ∧
    (∀ (env : CdpEnv) (e : String),
      get_ws_url env.fetchBefore CDP_PORT = .error e →
        REv.launchOn CDP_PORT ∈ (ensure_chrome_running env).2 ∧
        ((env.launch CDP_PORT).returncode ≠ 0 →
          (ensure_chrome_running env).1 =
            .error ("Failed to launch Chrome: " ++ (env.launch CDP_PORT).stderr)) ∧
        ((env.launch CDP_PORT).returncode = 0 →
          (strStarts (lastLine (env.launch CDP_PORT).stdout) "ws://" = true →
            ensure_chrome_running env =
              (.ok (lastLine (env.launch CDP_PORT).stdout),
               [.fetchOn CDP_PORT, .launchOn CDP_PORT])) ∧
          (strStarts (lastLine (env.launch CDP_PORT).stdout) "ws://" = false →
            ensure_chrome_running env =
              (get_ws_url env.fetchAfterLaunch CDP_PORT,
               [.fetchOn CDP_PORT, .launchOn CDP_PORT, .fetchOn CDP_PORT])))) := by
  have hok : ∀ (f : Nat → CdpFetch) (port : Nat) (w : String),
      f port = .resp 200 (.fields (some w)) → get_ws_url f port = .ok w := by
    intro f port w hf
    simp [get_ws_url, hf]
  refine ⟨hok, ?_, ?_, ?_, ?_⟩
  · intro f port st b hst hf
    refine ⟨"CDP returned HTTP " ++ natDecimal st, ?_⟩
    simp [get_ws_url, hf, hst]
  · intro f port hf
    refine ⟨"json decode error", ?_⟩
    simp [get_ws_url, hf]
  · intro env w hf
    unfold ensure_chrome_running
    rw [hok env.fetchBefore CDP_PORT w hf]
  · intro env e hg
    unfold ensure_chrome_running
    simp only [hg]
    refine ⟨?_, ?_, ?_⟩
    · split
      · simp
      · split <;> simp
    · intro hrc
      simp [hrc]
    · intro hrc
      constructor
      · intro hws
        simp [hrc, hws]
      · intro hws
        simp [hrc, hws]

/-- A concrete environment with a healthy endpoint already up. -/
def envUp : CdpEnv where
  fetchBefore := fun _ => .resp 200 (.fields (some "ws://up/devtools/browser/1"))
  fetchAfterLaunch := fun _ => .connErr "not used"
  launch := fun _ => ⟨1, "", "launcher must not run"⟩

/-- A concrete environment where the launcher must start the browser. -/
def envLaunch : CdpEnv where
  fetchBefore := fun _ => .connErr "connection refused"
  fetchAfterLaunch := fun _ => .connErr "not used"
  launch := fun _ => ⟨0, "starting chrome\nws://launched/devtools/browser/2", ""⟩

/-- Witness for C4 on the two concrete environments. -/
theorem C4_endpoint_resolution_witness :
    ensure_chrome_running envUp =
      (.ok "ws://up/devtools/browser/1", [.fetchOn CDP_PORT]) ∧
    ensure_chrome_running envLaunch =
      (.ok (lastLine (envLaunch.launch CDP_PORT).stdout),
       [.fetchOn CDP_PORT, .launchOn CDP_PORT]) ∧
    lastLine (envLaunch.launch CDP_PORT).stdout = "ws://launched/devtools/browser/2" := by
  refine ⟨C4_endpoint_resolution.2.2.2.1 envUp _ rfl, ?_, by decide⟩
  have h := C4_endpoint_resolution.2.2.2.2 envLaunch "connection refused" rfl
  exact (h.2.2 (by decide)).1 (by decide)

/-- Injectivity of the decimal digit characters. -/
theorem digit_char_inj : ∀ d₁ : Nat, d₁ < 10 → ∀ d₂ : Nat, d₂ < 10 →
    Char.ofNat (48 + d₁) = Char.ofNat (48 + d₂) → d₁ = d₂ := by decide

/-- Decoding undoes the digit-to-character rendering on digit lists. -/
theorem digit_chars_roundtrip : ∀ l : List Nat, (∀ d ∈ l, d < 10) →
    (l.map (fun d => Char.ofNat (48 + d))).map (fun c => c.toNat - 48) = l := by
  intro l
  induction l with
  | nil => intro _; rfl
  | cons d rest ih =>
    intro hl
    have hd : d < 10 := hl d (List.mem_cons_self d rest)
    have hdec : ∀ d : Nat, d < 10 → (Char.ofNat (48 + d)).toNat - 48 = d := by decide
    simp only [List.map_cons, List.cons.injEq]
    exact ⟨hdec d hd, ih (fun x hx => hl x (List.mem_cons_of_mem d hx))⟩

/-- The decimal rendering of a natural number is injective. -/
theorem natDecimal_inj {a b : Nat} (h : natDecimal a = natDecimal b) : a = b := by
  have hdata : ((Nat.digits 10 a).map (fun d => Char.ofNat (48 + d))).reverse =
      ((Nat.digits 10 b).map (fun d => Char.ofNat (48 + d))).reverse :=
    congrArg String.data h
  have hmap : (Nat.digits 10 a).map (fun d => Char.ofNat (48 + d)) =
      (Nat.digits 10 b).map (fun d => Char.ofNat (48 + d)) :=
    List.reverse_injective hdata
  have hdig : Nat.digits 10 a = Nat.digits 10 b := by
    have ha := digit_chars_roundtrip (Nat.digits 10 a)
      (fun d hd => Nat.digits_lt_base (by norm_num) hd)
    have hb := digit_chars_roundtrip (Nat.digits 10 b)
      (fun d hd => Nat.digits_lt_base (by norm_num) hd)
    rw [← ha, ← hb, hmap]
  exact Nat.digits_inj_iff.mp hdig

/-- Distinct timestamps produce distinct screenshot file paths. -/
theorem screenshotFilepath_inj {t₁ t₂ : Nat} (h : t₁ ≠ t₂) :
    screenshotFilepath t₁ ≠ screenshotFilepath t₂ := by
  intro he
  have hd : SCREENSHOT_DIR.data ++ ("/".data ++ ("stealth_".data ++
        ((natDecimal t₁).data ++ ".png".data))) =
      SCREENSHOT_DIR.data ++ ("/".data ++ ("stealth_".data ++
        ((natDecimal t₂).data ++ ".png".data))) := by
    have h0 := congrArg String.data he
    simpa only [screenshotFilepath, String.data_append, List.append_assoc] using h0
  have h1 := List.append_cancel_left hd
  have h2 := List.append_cancel_left h1
  have h3 := List.append_cancel_left h2
  have h4 := List.append_cancel_right h3
  exact h (natDecimal_inj (String.ext h4))

/-- A concrete screenshot run against one target. -/
def shotPageA : Page where
  gotoRes := .ok ()
  url := "https://a.example/"
  title := .ok "Shot A"
  content := .ok "alpha page"
  query := fun _ => .notFound
  bodyInnerText := .ok ""
  screenshotRes := .ok ()

/-- A concrete screenshot run against a different target. -/
def shotPageB : Page where
  gotoRes := .ok ()
  url := "https://b.example/"
  title := .ok "Shot B"
  content := .ok "beta page"
  query := fun _ => .notFound
  bodyInnerText := .ok ""
  screenshotRes := .ok ()

/-- C8 counterexample: two different captures (different target pages) in
the same epoch second produce the same file path, so the second write
overwrites the first. -/
theorem C8_counterexample :
    shotPageA.url ≠ shotPageB.url ∧
    (action_screenshot shotPageA 1700000000).1 =
      .ok (.shotSuccess shotPageA.url "Shot A" (screenshotFilepath 1700000000)) ∧
    (action_screenshot shotPageB 1700000000).1 =
      .ok (.shotSuccess shotPageB.url "Shot B" (screenshotFilepath 1700000000)) ∧
    (action_screenshot shotPageA 1700000000).1.toOption.bind AResult.screenshotPath =
      (action_screenshot shotPageB 1700000000).1.toOption.bind AResult.screenshotPath := by
  exact ⟨by decide, rfl, rfl, rfl⟩

/-- C8 as amended: every successful capture's path is the epoch-stamped
file in the fixed directory; captures with distinct epoch timestamps get
distinct paths; captures within the same epoch second share the path (a
collision window in which the later capture overwrites the earlier). -/
theorem C8_screenshot_paths (p : Page) (now : Nat) (ti : String) :
    (p.gotoRes = .ok () → (detect_risk_control p.url p.content).detected = false →
      p.screenshotRes = .ok () → p.title = .ok ti →
      (action_screenshot p now).1 = .ok (.shotSuccess p.url ti (screenshotFilepath now))) ∧
    (∀ t₁ t₂ : Nat, t₁ ≠ t₂ → screenshotFilepath t₁ ≠ screenshotFilepath t₂) := by
  constructor
  · intro hg hd hs ht
    simp [action_screenshot, hg, hd, hs, ht]
  · intro t₁ t₂ h
    exact screenshotFilepath_inj h

/-- Witness for C8 as amended. -/
theorem C8_screenshot_paths_witness :
    (action_screenshot shotPageA 1700000001).1 =
      .ok (.shotSuccess shotPageA.url "Shot A" (screenshotFilepath 1700000001)) ∧
    screenshotFilepath 1 ≠ screenshotFilepath 2 := by
  exact ⟨(C8_screenshot_paths shotPageA 1700000001 "Shot A").1 rfl (by decide) rfl rfl,
    (C8_screenshot_paths shotPageA 0 "Shot A").2 1 2 (by decide)⟩

/-- An environment in which port 9222 has no browser but port 9333 is
irrelevant; used to exhibit the ignored `--cdp-port` override. -/
def portEnv : CdpEnv where
  fetchBefore := fun _ => .connErr "connection refused"
  fetchAfterLaunch := fun _ => .connErr "connection refused"
  launch := fun _ => ⟨0, "ws://127.0.0.1:9222/devtools/browser/abc", ""⟩

/-- C9: the caller's `--cdp-port 9333` override is parsed but never
threaded into `ensure_chrome_running`, which fetches the metadata and
invokes the launcher on the fixed port 9222; no resolver call ever
targets the override port. -/
theorem C9_port_override_ignored :
    mainResolve portEnv 9333 =
      (.ok "ws://127.0.0.1:9222/devtools/browser/abc",
       [.fetchOn 9222, .launchOn 9222]) ∧
    REv.fetchOn 9333 ∉ (mainResolve portEnv 9333).2 ∧
    REv.launchOn 9333 ∉ (mainResolve portEnv 9333).2 := by
  exact ⟨by decide, by decide, by decide⟩

end StealthBrowse
